import Mathlib

/-!
Verification of the document-to-quiz pipeline in `app.py` (Streamlit AI coach).
The Python source is shallowly embedded: pure fragments become Lean functions,
the Streamlit per-rerun submit handler becomes an explicit state-passing step
function, external effects (Gemini client construction, the model call, the
current wall-clock time) become explicit oracle arguments, and the sqlite
result log becomes a `List LogEvent` to which `log_result` appends.
-/

namespace App

/-! ## Python string primitives used by the source

`app.py` uses `str.strip()`, `str.lower()` and slicing `s[:n]`.  They are
modelled over the code-point list of the string: `pyStrip` removes leading and
trailing whitespace, `pyLower` lowercases (ASCII letters, which covers every
string the program compares), `pySlice s n` is `s[:n]`. -/

def pyIsSpace (c : Char) : Bool :=
  c = ' ' || c = '\t' || c = '\n' || c = '\r' || c = '\x0b' || c = '\x0c'

def pyStrip (s : String) : String :=
  String.mk (((s.data.dropWhile pyIsSpace).reverse.dropWhile pyIsSpace).reverse)

def pyLower (s : String) : String :=
  String.mk (s.data.map Char.toLower)

def pySlice (s : String) (n : Nat) : String :=
  String.mk (s.data.take n)

/-! ## Parsed Python values and `json.loads`

`generate_problems_from_text` parses the model response with `json.loads`,
which yields a Python object: `None`, a bool, a number, a string, a list or a
dict.  `PyVal` models that result (numbers as integers: the
fraction/exponent forms and the `\u` escape are not exercised by any input
considered here, and the modelled parser rejects them).  `jsonLoads` accepts
exactly what `json.loads` accepts on the relevant inputs: optional
whitespace, one JSON value, optional whitespace, end of input; on anything
else it fails, as `json.loads` raises. -/

inductive PyVal where
  | pyNone : PyVal
  | pyBool (b : Bool) : PyVal
  | pyInt (n : Int) : PyVal
  | pyStr (s : String) : PyVal
  | pyList (xs : List PyVal) : PyVal
  | pyDict (kvs : List (String × PyVal)) : PyVal

def lbrace : Char := Char.ofNat 123

def rbrace : Char := Char.ofNat 125

def wsChars : List Char := [' ', '\t', '\n', '\r']

def dropWs (cs : List Char) : List Char :=
  cs.dropWhile (fun c => wsChars.contains c)

/-- Inverse of a backslash escape inside a JSON string. -/
def unescapeChar (e : Char) : Option Char :=
  if e = '"' ∨ e = '\\' ∨ e = '/' then some e
  else if e = 'n' then some '\n'
  else if e = 't' then some '\t'
  else if e = 'r' then some '\r'
  else if e = 'b' then some (Char.ofNat 8)
  else if e = 'f' then some (Char.ofNat 12)
  else none

/-- Reads the rest of a JSON string once the opening quote has been consumed,
producing its characters and whatever follows the closing quote. -/
def strTail : List Char → Option (List Char × List Char)
  | [] => none
  | c :: cs =>
    if c = '"' then some ([], cs)
    else if c = '\\' then
      match cs with
      | [] => none
      | e :: cs2 =>
        match unescapeChar e, strTail cs2 with
        | some u, some (body, rest) => some (u :: body, rest)
        | _, _ => none
    else
      match strTail cs with
      | some (body, rest) => some (c :: body, rest)
      | none => none

/-- Consumes the remaining characters of a keyword (`true`, `false`, `null`)
whose first character has already been seen. -/
def litTail : List Char → List Char → Option (List Char)
  | [], cs => some cs
  | _ :: _, [] => none
  | l :: ls, c :: cs => if c = l then litTail ls cs else none

def digitSpan (cs : List Char) : List Char × List Char :=
  (cs.takeWhile Char.isDigit, cs.dropWhile Char.isDigit)

def digitsVal : Nat → List Char → Nat
  | n, [] => n
  | n, d :: ds => digitsVal (10 * n + (d.toNat - 48)) ds

mutual

def pyParse : Nat → List Char → Option (PyVal × List Char)
  | 0, _ => none
  | Nat.succ fuel, input =>
    match dropWs input with
    | [] => none
    | c :: rest =>
      if c = '"' then
        (strTail rest).map (fun p => (PyVal.pyStr (String.mk p.1), p.2))
      else if c = '[' then
        match dropWs rest with
        | ']' :: more => some (PyVal.pyList [], more)
        | other => (moreItems fuel other).map (fun p => (PyVal.pyList p.1, p.2))
      else if c = lbrace then
        match dropWs rest with
        | [] => none
        | d :: more =>
          if d = rbrace then some (PyVal.pyDict [], more)
          else (morePairs fuel (d :: more)).map (fun p => (PyVal.pyDict p.1, p.2))
      else if c = 't' then (litTail "rue".data rest).map (fun r => (PyVal.pyBool true, r))
      else if c = 'f' then (litTail "alse".data rest).map (fun r => (PyVal.pyBool false, r))
      else if c = 'n' then (litTail "ull".data rest).map (fun r => (PyVal.pyNone, r))
      else if c = '-' then
        match digitSpan rest with
        | ([], _) => none
        | (ds, more) => some (PyVal.pyInt (-(digitsVal 0 ds : Int)), more)
      else if c.isDigit then
        match digitSpan (c :: rest) with
        | (ds, more) => some (PyVal.pyInt (digitsVal 0 ds), more)
      else none

def moreItems : Nat → List Char → Option (List PyVal × List Char)
  | 0, _ => none
  | Nat.succ fuel, input =>
    match pyParse fuel input with
    | none => none
    | some (v, r) =>
      match dropWs r with
      | [] => none
      | d :: r2 =>
        if d = ',' then
          match moreItems fuel r2 with
          | some (vs, r3) => some (v :: vs, r3)
          | none => none
        else if d = ']' then some ([v], r2)
        else none

def morePairs : Nat → List Char → Option (List (String × PyVal) × List Char)
  | 0, _ => none
  | Nat.succ fuel, input =>
    match dropWs input with
    | q :: r0 =>
      if q = '"' then
        match strTail r0 with
        | none => none
        | some (key, r1) =>
          match dropWs r1 with
          | sep :: r2 =>
            if sep = ':' then
              match pyParse fuel r2 with
              | none => none
              | some (v, r3) =>
                match dropWs r3 with
                | d :: r4 =>
                  if d = ',' then
                    match morePairs fuel r4 with
                    | some (ms, r5) => some ((String.mk key, v) :: ms, r5)
                    | none => none
                  else if d = rbrace then some ([(String.mk key, v)], r4)
                  else none
                | [] => none
            else none
          | [] => none
      else none
    | [] => none

end

def jsonLoads (s : String) : Option PyVal :=
  match pyParse (s.data.length + 1) s.data with
  | some (v, rest) => if dropWs rest = [] then some v else none
  | none => none

/-! ## The decoder stage of `generate_problems_from_text` (app.py lines 223-225)

The source reads `json_text = response.text.strip()` and then
`problems = json.loads(json_text)`; any exception is caught by the enclosing
handler, which shows an error and returns `None`.  `decodeModel` is that
fragment as a function of the raw response text. -/

def decodeModel (response_text : String) : Option PyVal :=
  jsonLoads (pyStrip response_text)

/-! ## Result log (sqlite table `logs`, app.py lines 31-54)

A row holds a timestamp string, a topic string and a 0/1 correctness flag;
rows are only ever inserted.  The table is a `List LogEvent`, `log_result`
is the insert (the current time is an explicit argument). -/

structure LogEvent where
  timestamp : String
  topic : String
  is_correct : Bool
deriving DecidableEq, Repr

def log_result (log : List LogEvent) (now : String) (topic : String)
    (is_correct : Bool) : List LogEvent :=
  log ++ [⟨now, topic, is_correct⟩]

/-! ## Quiz session state and the submit handler (app.py lines 279-406)

The generated problems are dicts with keys `question`, `answer`,
`explanation`; `main` reads exactly those three keys.  The Streamlit session
state relevant to the quiz is `ai_problems` and `ai_idx`.  `submitStep` is one
rerun of the problem tab in which the answer form was submitted with text
`ans` (or not submitted, `none`): when a problem set is loaded and
`ai_idx` is in range, the submission is judged and exactly one row is logged
with the hard-coded topic "AI生成問題"; on every other path the rerun renders
a screen and touches neither the state nor the log.  `nextStep` is the
"次の問題へ" button, `restartStep` the "もう一度最初から解く" button. -/

structure Problem where
  question : String
  answer : String
  explanation : String
deriving DecidableEq, Repr

structure AppState where
  ai_problems : Option (List Problem)
  ai_idx : Nat
deriving DecidableEq, Repr

def judgeAnswer (correct_answer user_answer : String) : Bool :=
  pyLower (pyStrip user_answer) == pyLower (pyStrip correct_answer)

def submitStep (s : AppState) (log : List LogEvent) (now : String)
    (user_answer : Option String) : AppState × List LogEvent :=
  match s.ai_problems, user_answer with
  | some ps, some ans =>
    if h : s.ai_idx < ps.length then
      (s, log_result log now "AI生成問題" (judgeAnswer (ps.get ⟨s.ai_idx, h⟩).answer ans))
    else (s, log)
  | _, _ => (s, log)

def nextStep (s : AppState) : AppState :=
  { s with ai_idx := s.ai_idx + 1 }

def restartStep (s : AppState) : AppState :=
  { s with ai_idx := 0 }

def runSubmits : AppState → List LogEvent → List (String × String) → AppState × List LogEvent
  | s, log, [] => (s, log)
  | s, log, (now, ans) :: rest =>
    let r := submitStep s log now (some ans)
    runSubmits r.1 r.2 rest

/-! ## PDF extraction (app.py lines 107-112)

`download_single_pdf` iterates `pdf_reader.pages`, appending
`page.extract_text() or ""` to an accumulator and finally calls `.strip()`.
The per-page extraction results are the input (a page with no machine-readable
text yields `none`). -/

def concatPages (pages : List (Option String)) : String :=
  pages.foldl (fun text p => text ++ p.getD "") ""

def download_single_pdf (pages : List (Option String)) : String :=
  pyStrip (concatPages pages)

/-! ## Quiz generator request (app.py lines 188-197) -/

def system_prompt : String :=
  "あなたはプロの教育者であり、生成AIです。提供されたドキュメントのテキストを完全に理解し、" ++
  "その内容に基づいた、学生が確実に理解すべき重要事項に関する一問一答形式の問題を5問生成してください。 " ++
  "問題、正解、解説を必ず日本語で、指定されたJSONスキーマに従って出力してください。 " ++
  "解説は、なぜその答えになるのか、ドキュメントの内容に言及して詳細に記述してください。" ++
  "入力テキストが複数のファイルから結合されている場合、それが一体の資料であると見なして問題を生成してください。"

def gen_query_preamble : String :=
  "このドキュメントのテキストから、学生向けの一問一答形式の問題を5問、JSON形式で生成してください:\n\n---\n"

def user_query (document_text : String) : String :=
  gen_query_preamble ++ pySlice document_text 15000

/-! ## `generate_problems_from_text` (app.py lines 172-229)

The hard-coded fallback problem set returned when no Gemini API key is
configured (lines 204-210), and the full control flow of the function.
External effects are oracle arguments: `clientInit` is the outcome of
`genai.Client()`, `generate_content` maps the request text to the outcome of
the model call (the `.text` of the response, or the exception it raised);
`hasKey` is the check `'GEMINI_API_KEY' in os.environ or 'GEMINI_API_KEY' in
st.secrets`.  Every exception on the path lands in the `except` handler,
which returns `None`. -/

def dummy_problems : PyVal :=
  PyVal.pyList
    [ PyVal.pyDict
        [ ("question", PyVal.pyStr "フォルダIDで複数のPDFを読み込む機能を追加するために使ったAPIは何ですか？"),
          ("answer", PyVal.pyStr "Google Drive API"),
          ("explanation", PyVal.pyStr "Google Drive APIの`files().list`メソッドを使用して、フォルダ内のファイルを検索しています。") ],
      PyVal.pyDict
        [ ("question", PyVal.pyStr "複数のPDFから抽出したテキストは、どのように結合されますか？"),
          ("answer", PyVal.pyStr "区切り文字を挟んで結合される"),
          ("explanation", PyVal.pyStr "コードでは、`--- DOCUMENT START: [ファイル名] ---`という区切り文字を使って、ファイルごとのテキストを一つにまとめています。") ],
      PyVal.pyDict
        [ ("question", PyVal.pyStr "Streamlit Cloudに設定が必要な2つのSecretsは何ですか？"),
          ("answer", PyVal.pyStr "GEMINI_API_KEYとservice_account_json"),
          ("explanation", PyVal.pyStr "これらはAPIアクセスとGoogle Driveアクセスに必要な機密情報です。") ] ]

def generate_problems_from_text (hasKey : Bool) (clientInit : Except String Unit)
    (generate_content : String → Except String String)
    (document_text : String) : Option PyVal :=
  match clientInit with
  | .error _ => none
  | .ok _ =>
    if hasKey then
      match generate_content (user_query document_text) with
      | .error _ => none
      | .ok response_text => decodeModel response_text
    else some dummy_problems

/-! ## Stats aggregation (app.py lines 237-241 and 420-425)

`df.groupby('topic').agg(正解数=('is_correct','sum'), 回答数=('id','count'))`
followed by `正答率 = 正解数 / 回答数`.  Per group (= per distinct topic, in
first-appearance order; pandas sorts the keys, which no claim depends on):
the row count, the sum of the 0/1 correctness column, and their quotient. -/

def groupRows (log : List LogEvent) (t : String) : List LogEvent :=
  log.filter (fun e => e.topic == t)

def sumCorrect (rows : List LogEvent) : Nat :=
  rows.foldl (fun acc e => acc + (if e.is_correct then 1 else 0)) 0

def topicStats (log : List LogEvent) (t : String) : Nat × Nat × ℚ :=
  let rows := groupRows log t
  (rows.length, sumCorrect rows, ((sumCorrect rows : ℚ) / (rows.length : ℚ)))

def topicKeys (log : List LogEvent) : List String :=
  log.foldl (fun ks e => if e.topic ∈ ks then ks else ks ++ [e.topic]) []

def aggregate (log : List LogEvent) : List (String × Nat × Nat × ℚ) :=
  (topicKeys log).map (fun t => (t, topicStats log t))

/-! ## Concrete test data used by the claim theorems -/

/-- Claim inputs: a bare JSON array holding one record with the three keys the
program uses, and the same array wrapped in a Markdown code fence. -/
def bareInput : String :=
  "[\x7b\"question\": \"q\", \"answer\": \"a\", \"explanation\": \"e\"\x7d]"

def fencedInput : String := "```json\n" ++ bareInput ++ "\n```"

def bareParsed : PyVal :=
  PyVal.pyList [PyVal.pyDict [("question", PyVal.pyStr "q"), ("answer", PyVal.pyStr "a"),
    ("explanation", PyVal.pyStr "e")]]

/-- Claim input: a structurally well-formed array whose single element
violates the QuestionRecord invariants (question and answer empty after
trimming). -/
def invalidElemInput : String :=
  "[\x7b\"question\": \"\", \"answer\": \"\", \"explanation\": \"e\"\x7d]"

def invalidElemParsed : PyVal :=
  PyVal.pyList [PyVal.pyDict [("question", PyVal.pyStr ""), ("answer", PyVal.pyStr ""),
    ("explanation", PyVal.pyStr "e")]]

/-- A three-question problem set, as in the spec scenario for the session
state machine. -/
def ps3c : List Problem :=
  [⟨"q1", "a1", "e1"⟩, ⟨"q2", "a2", "e2"⟩, ⟨"q3", "a3", "e3"⟩]

/-- The spec example history [(t,"A",1),(t,"A",0),(t,"B",1)]. -/
def exampleLog : List LogEvent :=
  [⟨"t", "A", true⟩, ⟨"t", "A", false⟩, ⟨"t", "B", true⟩]

/-! ## Helper lemmas -/

theorem str_append_empty (s : String) : s ++ "" = s := by
  cases s with
  | mk data => exact congrArg String.mk (List.append_nil data)

theorem str_length_append (a b : String) : (a ++ b).length = a.length + b.length := by
  cases a with
  | mk da =>
    cases b with
    | mk db => exact List.length_append da db

theorem submitStep_fst (s : AppState) (log : List LogEvent) (now : String)
    (a : Option String) : (submitStep s log now a).1 = s := by
  rcases s with ⟨probs, idx⟩
  cases probs with
  | none => cases a <;> rfl
  | some ps =>
    cases a with
    | none => rfl
    | some ans =>
      by_cases h : idx < ps.length <;> simp [submitStep, h]

theorem submitStep_snd_append (s : AppState) (log : List LogEvent) (now : String)
    (a : Option String) :
    (submitStep s log now a).2 = log ++ (submitStep s [] now a).2 := by
  rcases s with ⟨probs, idx⟩
  cases probs with
  | none => cases a <;> simp [submitStep]
  | some ps =>
    cases a with
    | none => simp [submitStep]
    | some ans =>
      by_cases h : idx < ps.length <;> simp [submitStep, h, log_result]

theorem submitStep_active_snd (ps : List Problem) (idx : Nat) (h : idx < ps.length)
    (log : List LogEvent) (now : String) (ans : String) :
    (submitStep ⟨some ps, idx⟩ log now (some ans)).2 =
      log ++ [⟨now, "AI生成問題", judgeAnswer (ps.get ⟨idx, h⟩).answer ans⟩] := by
  simp [submitStep, h, log_result]

theorem runSubmits_fst (inputs : List (String × String)) :
    ∀ (s : AppState) (log : List LogEvent), (runSubmits s log inputs).1 = s := by
  induction inputs with
  | nil => intro s log; rfl
  | cons p rest ih =>
    intro s log
    rcases p with ⟨now, ans⟩
    simp only [runSubmits]
    rw [submitStep_fst]
    exact ih s _

theorem runSubmits_snd_append (inputs : List (String × String)) :
    ∀ (s : AppState) (log : List LogEvent),
      (runSubmits s log inputs).2 = log ++ (runSubmits s [] inputs).2 := by
  induction inputs with
  | nil => intro s log; simp [runSubmits]
  | cons p rest ih =>
    intro s log
    rcases p with ⟨now, ans⟩
    simp only [runSubmits]
    rw [submitStep_fst, submitStep_fst]
    rw [ih s (submitStep s log now (some ans)).2, ih s (submitStep s [] now (some ans)).2]
    rw [submitStep_snd_append s log now (some ans), List.append_assoc]

theorem runSubmits_active_length (inputs : List (String × String)) :
    ∀ (s : AppState) (log : List LogEvent) (ps : List Problem),
      s.ai_problems = some ps → s.ai_idx < ps.length →
      ((runSubmits s log inputs).2).length = log.length + inputs.length := by
  induction inputs with
  | nil => intro s log ps hp hi; simp [runSubmits]
  | cons p rest ih =>
    intro s log ps hp hi
    rcases p with ⟨now, ans⟩
    rcases s with ⟨probs, idx⟩
    have hp' : probs = some ps := hp
    subst hp'
    have hi' : idx < ps.length := hi
    simp only [runSubmits]
    rw [submitStep_fst]
    rw [ih ⟨some ps, idx⟩ _ ps rfl hi']
    rw [submitStep_active_snd ps idx hi' log now ans]
    simp [List.length_append]
    omega

theorem sumCorrect_go (rows : List LogEvent) :
    ∀ acc : Nat,
      rows.foldl (fun acc e => acc + (if e.is_correct then 1 else 0)) acc =
        acc + (rows.filter (fun e => e.is_correct)).length := by
  induction rows with
  | nil => intro acc; simp
  | cons e rest ih =>
    intro acc
    cases hc : e.is_correct with
    | false => simp [List.filter_cons, hc, ih]
    | true =>
      simp [List.filter_cons, hc, ih]
      omega

theorem sumCorrect_eq_filter_length (rows : List LogEvent) :
    sumCorrect rows = (rows.filter (fun e => e.is_correct)).length := by
  simpa using sumCorrect_go rows 0

theorem concatPages_skip_none (ps1 ps2 : List (Option String)) :
    concatPages (ps1 ++ none :: ps2) = concatPages (ps1 ++ ps2) := by
  unfold concatPages
  rw [List.foldl_append, List.foldl_append, List.foldl_cons]
  simp [str_append_empty]

/-! ## Claim C1 — decoder staging -/

/-- Claim C1 counterexample: the code does not strip fenced-code delimiters
and has no first-`[` / last-`]` fallback.  Decoding the fence-wrapped JSON
array fails (`none`), while decoding the bare array succeeds — so they do not
return the same problem set, refuting the claimed staged algorithm.  Note the
fenced input does contain a parseable `[...]` substring, so a bracket
fallback, had it existed, would have succeeded. -/
theorem C1_counterexample :
    decodeModel fencedInput = none ∧ decodeModel bareInput = some bareParsed :=
  ⟨rfl, rfl⟩

/-- Claim C1 (amended): the decoder strips surrounding whitespace only, then
attempts a single direct structural parse of the trimmed string; on any parse
failure it fails (returns `none`), with no fence stripping and no
bracket-substring fallback.  Hence whitespace-wrapped arrays decode like the
bare array, while a fence-wrapped array and an input with no brackets and no
parseable payload both fail. -/
theorem C1_amended_direct_parse_only :
    decodeModel ("  \n" ++ bareInput ++ " \t ") = some bareParsed ∧
    decodeModel fencedInput = none ∧
    decodeModel "no brackets here" = none :=
  ⟨rfl, rfl, rfl⟩

/-! ## Claim C2 — submitting while Completed -/

/-- Claim C2 counterexample: with the three-question set and the index past
the end (the Completed screen), a submitted answer is processed by no code
path: the handler — whose result type, taken from the source, has no error
outcome at all — returns the state and log unchanged, and its result is
identical to the result of not submitting anything.  Nothing resembling an
`InvalidTransition` rejection is raised, refuting that part of the claim
(the no-double-log part does hold). -/
theorem C2_counterexample :
    submitStep ⟨some ps3c, 3⟩ [] "t0" (some "x") = (⟨some ps3c, 3⟩, []) ∧
    submitStep ⟨some ps3c, 3⟩ [] "t0" (some "x") =
      submitStep ⟨some ps3c, 3⟩ [] "t0" none :=
  ⟨rfl, rfl⟩

/-- Claim C2 (amended): submitting an answer while the current index is past
the end of the problem set has no effect — the state is unchanged and no
LogEvent is appended (in particular no double-logging) — but no
`InvalidTransition` error is raised; the code silently ignores the
submission. -/
theorem C2_amended_completed_submit_silent_noop :
    ∀ (ps : List Problem) (idx : Nat) (log : List LogEvent) (now : String)
      (ans : Option String), ps.length ≤ idx →
      submitStep ⟨some ps, idx⟩ log now ans = (⟨some ps, idx⟩, log) := by
  intro ps idx log now ans h
  cases ans with
  | none => rfl
  | some a => simp [submitStep, Nat.not_lt.mpr h]

/-- Claim C2 witness: the amended statement applied at the concrete Completed
state. -/
theorem C2_witness :
    submitStep ⟨some ps3c, 3⟩ [⟨"t", "A", true⟩] "t1" (some "y") =
      (⟨some ps3c, 3⟩, [⟨"t", "A", true⟩]) :=
  C2_amended_completed_submit_silent_noop ps3c 3 [⟨"t", "A", true⟩] "t1" (some "y")
    (by decide)

/-! ## Claim C3 — append-only result log -/

/-- Claim C3: over any sequence of submitted answers, the result log is only
ever extended — the final log is the initial log with the newly produced
events appended (no previously inserted event is mutated or deleted) — and
while a problem set is loaded with the index in range, every submit call
appends exactly one LogEvent, so the final length is the initial length plus
the number of calls. -/
theorem C3_log_append_only :
    ∀ (s : AppState) (log : List LogEvent) (inputs : List (String × String)),
      (runSubmits s log inputs).2 = log ++ (runSubmits s [] inputs).2 ∧
      ((∃ ps, s.ai_problems = some ps ∧ s.ai_idx < ps.length) →
        ((runSubmits s log inputs).2).length = log.length + inputs.length) := by
  intro s log inputs
  refine ⟨runSubmits_snd_append inputs s log, ?_⟩
  rintro ⟨ps, hp, hi⟩
  exact runSubmits_active_length inputs s log ps hp hi

/-- Claim C3 witness: two submissions against the three-question set starting
from a one-event log give a three-event log extending the original. -/
theorem C3_witness :
    ((runSubmits ⟨some ps3c, 0⟩ [⟨"t", "A", true⟩] [("t1", "a1"), ("t2", "x")]).2 =
        [⟨"t", "A", true⟩] ++
          (runSubmits ⟨some ps3c, 0⟩ [] [("t1", "a1"), ("t2", "x")]).2) ∧
    ((runSubmits ⟨some ps3c, 0⟩ [⟨"t", "A", true⟩] [("t1", "a1"), ("t2", "x")]).2).length = 3 :=
  ⟨(C3_log_append_only ⟨some ps3c, 0⟩ [⟨"t", "A", true⟩] [("t1", "a1"), ("t2", "x")]).1,
   (C3_log_append_only ⟨some ps3c, 0⟩ [⟨"t", "A", true⟩] [("t1", "a1"), ("t2", "x")]).2
     ⟨ps3c, rfl, by decide⟩⟩

/-! ## Claim C4 — element validation -/

/-- Claim C4 counterexample: an array whose single element violates the
QuestionRecord invariants (question and answer empty after trimming) is
returned by the decoder exactly as parsed — the element is neither dropped
nor does the empty-after-dropping case produce a failure, refuting the
claimed validation stage. -/
theorem C4_counterexample :
    decodeModel invalidElemInput = some invalidElemParsed :=
  rfl

/-- Claim C4 (amended): after a successful structural parse the decoder
performs no element validation at all — whatever value the parse yields is
returned unchanged, so violating elements are accepted rather than dropped,
and an array of only violating elements does not fail. -/
theorem C4_amended_no_validation :
    ∀ (s : String) (v : PyVal), jsonLoads (pyStrip s) = some v → decodeModel s = some v := by
  intro s v h
  unfold decodeModel
  rw [h]

/-- Claim C4 witness: the amended statement applied to the invalid-element
input. -/
theorem C4_witness : decodeModel invalidElemInput = some invalidElemParsed :=
  C4_amended_no_validation invalidElemInput invalidElemParsed rfl

/-! ## Claim C5 — free-form answer matching -/

/-- Claim C5: for every free-form question and candidate string, the answer
is judged correct exactly when the candidate and the stored answer are equal
after stripping surrounding whitespace and lowercasing; in particular
"Paris " matches "paris". -/
theorem C5_freeform_answer_matching :
    (∀ correct_answer user_answer : String,
        judgeAnswer correct_answer user_answer = true ↔
          pyLower (pyStrip user_answer) = pyLower (pyStrip correct_answer)) ∧
    judgeAnswer "paris" "Paris " = true := by
  refine ⟨fun c u => ?_, rfl⟩
  simp [judgeAnswer]

/-- Claim C5 witness: the matching characterization applied at a concrete
pair differing only in case and surrounding whitespace. -/
theorem C5_witness : judgeAnswer "paris" "  PARIS\t" = true :=
  (C5_freeform_answer_matching.1 "paris" "  PARIS\t").mpr (by decide)

/-! ## Claim C6 — stats aggregation -/

set_option maxRecDepth 8192 in
/-- Claim C6: per topic the aggregator reports attempts equal to the number
of events with that topic, correct equal to the number of correct such
events, and accuracy their quotient; on the history
[(t,"A",1),(t,"A",0),(t,"B",1)] it yields A: 2 attempts, 1 correct, accuracy
1/2 and B: 1 attempt, 1 correct, accuracy 1. -/
theorem C6_topic_stats :
    (∀ (log : List LogEvent) (t : String),
        topicStats log t =
          ((groupRows log t).length,
           ((groupRows log t).filter (fun e => e.is_correct)).length,
           (((groupRows log t).filter (fun e => e.is_correct)).length : ℚ) /
             ((groupRows log t).length : ℚ))) ∧
    aggregate exampleLog = [("A", 2, 1, (1 : ℚ) / 2), ("B", 1, 1, 1)] := by
  constructor
  · intro log t
    simp [topicStats, sumCorrect_eq_filter_length]
  · simp [aggregate, topicKeys, topicStats, groupRows, sumCorrect, exampleLog]

/-! ## Claim C7 — topic carried by log events -/

/-- Claim C7 counterexample: answering the first question of the concrete set
appends an event whose topic is the hard-coded string "AI生成問題" — not the
record's topic (records have no topic field) and not the claimed
"unclassified" sentinel. -/
theorem C7_counterexample :
    (submitStep ⟨some ps3c, 0⟩ [] "t0" (some "zz")).2 = [⟨"t0", "AI生成問題", false⟩] ∧
    ("AI生成問題" : String) ≠ "unclassified" :=
  ⟨rfl, by decide⟩

/-- Claim C7 (amended): every LogEvent appended by the submit handler carries
the fixed topic string "AI生成問題"; the generated records carry no topic and
no "unclassified" default exists in the code. -/
theorem C7_amended_fixed_topic :
    ∀ (s : AppState) (log : List LogEvent) (now : String) (ans : Option String)
      (e : LogEvent),
      e ∈ (submitStep s log now ans).2 → e ∈ log ∨ e.topic = "AI生成問題" := by
  intro s log now ans e he
  rcases s with ⟨probs, idx⟩
  cases probs with
  | none =>
    cases ans with
    | none => exact Or.inl he
    | some a => exact Or.inl he
  | some ps =>
    cases ans with
    | none => exact Or.inl he
    | some a =>
      by_cases h : idx < ps.length
      · simp [submitStep, h, log_result] at he
        rcases he with he | he
        · exact Or.inl he
        · subst he
          exact Or.inr rfl
      · simp [submitStep, h] at he
        exact Or.inl he

/-- Claim C7 witness: the amended statement applied to the concrete
submission from the C7 counterexample scenario. -/
theorem C7_witness :
    (⟨"t0", "AI生成問題", false⟩ : LogEvent) ∈ ([] : List LogEvent) ∨
      LogEvent.topic ⟨"t0", "AI生成問題", false⟩ = "AI生成問題" :=
  C7_amended_fixed_topic ⟨some ps3c, 0⟩ [] "t0" (some "zz")
    ⟨"t0", "AI生成問題", false⟩ (by decide)

/-! ## Claim C8 — per-page extraction -/

/-- Claim C8 counterexample: two non-empty pages produce exactly the bare
concatenation of their texts — the output has exactly as many characters as
the two pages combined, so no page-number marker was inserted before either
page, refuting the claimed markers. -/
theorem C8_counterexample :
    download_single_pdf [some "hello", some "world"] = "helloworld" ∧
    ("helloworld" : String).length = ("hello" : String).length + ("world" : String).length :=
  ⟨rfl, rfl⟩

/-- Claim C8 (amended): the extractor's output is the concatenation of
per-page text in original page order with surrounding whitespace trimmed and
no page-number markers; a page yielding no extractable text is silently
skipped without error. -/
theorem C8_amended_plain_concat :
    (∀ ps1 ps2 : List (Option String),
        download_single_pdf (ps1 ++ none :: ps2) = download_single_pdf (ps1 ++ ps2)) ∧
    download_single_pdf [some "ab", none, some "cd"] = "abcd" := by
  refine ⟨fun ps1 ps2 => ?_, rfl⟩
  unfold download_single_pdf
  rw [concatPages_skip_none]

/-! ## Claim C9 — bounded generation request -/

/-- Claim C9: the generation request is the fixed instruction preamble plus a
prefix of the document text hard-capped at 15000 characters: the request
length never exceeds the preamble plus 15000, and two documents agreeing on
their first 15000 characters produce the identical request — text beyond the
cap is never included.  (The system instruction `system_prompt` is a
process-wide constant.) -/
theorem C9_bounded_request :
    (∀ t : String, (user_query t).length ≤ gen_query_preamble.length + 15000) ∧
    (∀ t1 t2 : String, pySlice t1 15000 = pySlice t2 15000 →
        user_query t1 = user_query t2) := by
  constructor
  · intro t
    rw [user_query, str_length_append]
    have h : (pySlice t 15000).length ≤ 15000 := List.length_take_le 15000 t.data
    omega
  · intro t1 t2 h
    unfold user_query
    rw [h]

/-- Claim C9 witness: a 20000-character document and its 15000-character
truncation produce the identical bounded request. -/
theorem C9_witness :
    user_query (String.mk (List.replicate 20000 'a')) =
      user_query (String.mk (List.replicate 15000 'a')) ∧
    (user_query (String.mk (List.replicate 20000 'a'))).length ≤
      gen_query_preamble.length + 15000 :=
  ⟨C9_bounded_request.2 (String.mk (List.replicate 20000 'a'))
      (String.mk (List.replicate 15000 'a'))
      (by
        show String.mk ((List.replicate 20000 'a').take 15000) =
          String.mk ((List.replicate 15000 'a').take 15000)
        rw [List.take_replicate, List.take_replicate]
        norm_num),
   C9_bounded_request.1 (String.mk (List.replicate 20000 'a'))⟩

/-! ## Claim C10 — fallback problem set without an API key -/

/-- Claim C10: when no Gemini API key is configured (the environment/secrets
check is false) and the client object is constructed, problem generation
returns the hard-coded three-record problem set for every possible model
oracle — the model is never consulted — rather than failing. -/
theorem C10_no_key_dummy_problems :
    (∀ (gc : String → Except String String) (t : String),
        generate_problems_from_text false (.ok ()) gc t = some dummy_problems) ∧
    (∃ items : List PyVal, dummy_problems = PyVal.pyList items ∧ items.length = 3) :=
  ⟨fun _ _ => rfl, ⟨_, rfl, rfl⟩⟩

end App
